import Mathlib

/-
  Verification of the conversation-state / completion-request core of the
  Python Q&A chatbot (src/app.py), shallowly embedded in Lean 4.

  The embedding follows the source:
  * `Role` / `Message`        - the role-tagged chat messages;
  * `ConversationState`       - the session triple (messages, model, temperature);
  * `ensure_session_state`    - app.py lines 20-28 (per-key defaulting);
  * `append_user` / `append_assistant` - app.py lines 101-102 / 125;
  * `reset`                   - app.py lines 52-55 (New conversation button);
  * `set_model` / `set_temperature`    - app.py lines 40 / 50;
  * `build_messages`          - app.py lines 65-67;
  * `ask_openai` / `complete` - app.py lines 70-76 with the try/except
                                boundary of lines 109-122;
  * `processInput`            - the submission cycle of main, lines 98-125;
  * `PyState` heap model      - Python object semantics for the live message
                                list, used to state the no-aliasing property
                                of the `list(...)` copy in build_messages.

  Temperature is modelled as an exact rational: the claims under study only
  assign and compare it, never do float arithmetic.
-/

namespace App

inductive Role where
  | system
  | user
  | assistant
  deriving DecidableEq, Repr

structure Message where
  role : Role
  content : String
  deriving DecidableEq, Repr

/-- The fixed default system prompt, from get_default_system_prompt in src/app.py. -/
def get_default_system_prompt : String :=
  "You are a helpful assistant and expert Python programming tutor. " ++
  "Answer questions clearly and concisely. Provide runnable Python code examples when helpful, " ++
  "explain reasoning, and mention version-specific features if relevant (e.g., Python 3.10 match/case). " ++
  "Prefer standard library solutions unless a third-party library is essential. " ++
  "When showing code, use complete examples and highlight potential pitfalls. " ++
  "If the user\u0027s question is ambiguous, ask a brief clarifying question."

/-- The single system message placed at the head of every fresh transcript. -/
def defaultSystemMessage : Message :=
  { role := Role.system, content := get_default_system_prompt }

/-- The conversation state: ordered transcript plus the two scalar settings. -/
structure ConversationState where
  messages : List Message
  model : String
  temperature : ℚ
  deriving DecidableEq, Repr

/-- Streamlit session state before initialisation: each key may be absent. -/
structure SessionState where
  messages : Option (List Message)
  model : Option String
  temperature : Option ℚ
  deriving DecidableEq, Repr

def emptySession : SessionState :=
  { messages := none, model := none, temperature := none }

/-- ensure_session_state from src/app.py lines 20-28: each key is defaulted
only when absent, independently of the others. -/
def ensure_session_state (s : SessionState) : SessionState :=
  let s1 := if s.messages.isNone then
    { s with messages := some [defaultSystemMessage] } else s
  let s2 := if s1.model.isNone then
    { s1 with model := some "gpt-3.5-turbo" } else s1
  if s2.temperature.isNone then
    { s2 with temperature := some (0.2 : ℚ) } else s2

/-- Read a fully-initialised session as a ConversationState. -/
def toConversationState (s : SessionState) : ConversationState :=
  { messages := s.messages.getD []
    model := s.model.getD ""
    temperature := s.temperature.getD 0 }

/-- The state right after initialisation of a fresh session. -/
def initState : ConversationState :=
  toConversationState (ensure_session_state emptySession)

/-- st.session_state.messages.append(user_msg), src/app.py lines 101-102. -/
def append_user (s : ConversationState) (text : String) : ConversationState :=
  { s with messages := s.messages ++ [{ role := Role.user, content := text }] }

/-- st.session_state.messages.append of the assistant reply, src/app.py line 125. -/
def append_assistant (s : ConversationState) (text : String) : ConversationState :=
  { s with messages := s.messages ++ [{ role := Role.assistant, content := text }] }

/-- The New-conversation reset, src/app.py lines 52-55: the transcript is
replaced by a fresh single system message; model and temperature are not
touched. -/
def reset (s : ConversationState) : ConversationState :=
  { s with messages := [{ role := Role.system, content := get_default_system_prompt }] }

/-- st.session_state.model = model, src/app.py line 40: direct assignment. -/
def set_model (s : ConversationState) (value : String) : ConversationState :=
  { s with model := value }

/-- st.session_state.temperature = temperature, src/app.py line 50: direct
assignment, no clamping or validation in this operation. -/
def set_temperature (s : ConversationState) (value : ℚ) : ConversationState :=
  { s with temperature := value }

/-- build_messages, src/app.py lines 65-67: list(st.session_state.messages),
a copy of the current transcript.  As a pure value it is the message list;
the copy (non-aliasing) semantics is modelled separately on PyState. -/
def build_messages (s : ConversationState) : List Message :=
  s.messages

/-- The outbound request of client.chat.completions.create, src/app.py
lines 71-75: model, messages and temperature are passed through verbatim. -/
structure Request where
  model : String
  messages : List Message
  temperature : ℚ
  deriving DecidableEq, Repr

/-- One element of response.choices; only the text content is read. -/
structure Choice where
  content : String
  deriving DecidableEq, Repr

/-- The remote response structure: a list of generated choices. -/
structure Response where
  choices : List Choice
  deriving DecidableEq, Repr

/-- The remote completion service: given one request it either returns a
response or raises a fault (network, auth, quota, bad model, ...),
modelled as the error side of Except. -/
def Remote : Type :=
  Request → Except String Response

/-- The request value built at src/app.py lines 71-75. -/
def chatRequest (model : String) (messages : List Message) (temperature : ℚ) :
    Request :=
  { model := model, messages := messages, temperature := temperature }

/-- ask_openai, src/app.py lines 70-76: issue the request and read
response.choices[0].message.content.  An empty choices list makes the
subscript raise IndexError, still an uncaught fault at this level. -/
def ask_openai (client : Remote) (messages : List Message) (model : String)
    (temperature : ℚ) : Except String String :=
  match client (chatRequest model messages temperature) with
  | Except.error e => Except.error e
  | Except.ok r =>
    match r.choices with
    | [] => Except.error "list index out of range"
    | c :: _ => Except.ok c.content

/-- The fault string built in the except branch, src/app.py lines 118-122:
two adjacent literals, the second an f-string carrying the fault text. -/
def faultString (e : String) : String :=
  "Sorry, I couldn\u0027t process your request. " ++ ("Details: " ++ e)

/-- The header the spec quotes for fault strings (no trailing space). -/
def faultHeader : String :=
  "Sorry, I couldn\u0027t process your request."

/-- A string that begins with the fault header. -/
def FaultPrefixed (s : String) : Prop :=
  ∃ rest, s = faultHeader ++ rest

/-- The Completion-Requester boundary: ask_openai wrapped in the try/except
of src/app.py lines 109-122.  Every fault becomes the fault string; the
operation itself always returns a string. -/
def complete (client : Remote) (messages : List Message) (model : String)
    (temperature : ℚ) : String :=
  match ask_openai client messages model temperature with
  | Except.ok text => text
  | Except.error e => faultString e

/-- One submission cycle of main, src/app.py lines 98-125.  An empty (falsy)
input is ignored.  Otherwise: append the user message, snapshot via
build_messages, call the remote under the current model/temperature, append
the result-or-fault string as the assistant message.  The second component
records the request issued (none when no call was made). -/
def processInput (client : Remote) (s : ConversationState) (userInput : String) :
    ConversationState × Option Request :=
  if userInput = "" then (s, none)
  else
    let s1 := append_user s userInput
    let msgs := build_messages s1
    let reply := complete client msgs s1.model s1.temperature
    (append_assistant s1 reply, some (chatRequest s1.model msgs s1.temperature))

/-- The transcript mutations of the session loop (append of a user or an
assistant message), for stating the system-message invariant. -/
inductive ChatOp where
  | user (text : String)
  | assistant (text : String)
  deriving DecidableEq, Repr

def applyChatOp (s : ConversationState) : ChatOp → ConversationState
  | ChatOp.user t => append_user s t
  | ChatOp.assistant t => append_assistant s t

def applyChatOps (s : ConversationState) (ops : List ChatOp) : ConversationState :=
  ops.foldl applyChatOp s

/-
  Python object-level model of the live transcript, for the no-aliasing
  property of build_messages.  List objects live in a heap of cells
  addressed by allocation order; st.session_state.messages holds the
  address of the live list.  list.append mutates the cell in place,
  the reset assignment rebinds the name to a freshly allocated list, and
  list(xs) in build_messages allocates a fresh cell holding a copy.
-/

structure PyState where
  cells : List (List Message)
  liveAddr : Nat
  deriving DecidableEq, Repr

/-- Read the list object stored at an address. -/
def readCell (σ : PyState) (a : Nat) : List Message :=
  σ.cells.getD a []

/-- st.session_state.messages.append(m): in-place mutation of the live cell. -/
def heapAppend (σ : PyState) (m : Message) : PyState :=
  { σ with cells := σ.cells.set σ.liveAddr (readCell σ σ.liveAddr ++ [m]) }

/-- st.session_state.messages = [system_msg] (src/app.py lines 53-54):
a new list object is allocated and the name rebound to it; the old cell is
not written. -/
def heapReset (σ : PyState) : PyState :=
  { cells := σ.cells ++ [[defaultSystemMessage]], liveAddr := σ.cells.length }

/-- build_messages (src/app.py lines 65-67): list(st.session_state.messages)
allocates a fresh cell containing a copy of the live list and returns its
address. -/
def snapshotAddr (σ : PyState) : PyState × Nat :=
  ({ σ with cells := σ.cells ++ [readCell σ σ.liveAddr] }, σ.cells.length)

/-- The mutations the app performs on the live transcript after a snapshot
could be taken: user append, assistant append, reset. -/
inductive HeapOp where
  | user (text : String)
  | assistant (text : String)
  | reset
  deriving DecidableEq, Repr

def applyHeapOp (σ : PyState) : HeapOp → PyState
  | HeapOp.user t => heapAppend σ { role := Role.user, content := t }
  | HeapOp.assistant t => heapAppend σ { role := Role.assistant, content := t }
  | HeapOp.reset => heapReset σ

def applyHeapOps (σ : PyState) (ops : List HeapOp) : PyState :=
  ops.foldl applyHeapOp σ

/-- The system-message invariant: the transcript is the default system
message followed by messages none of which carries the system role. -/
def SysInv (s : ConversationState) : Prop :=
  ∃ rest, s.messages = defaultSystemMessage :: rest
    ∧ ∀ m ∈ rest, m.role ≠ Role.system

/-
  Theorems.
-/

theorem faultString_prefixed (e : String) : FaultPrefixed (faultString e) := by
  refine ⟨" Details: " ++ e, ?_⟩
  show "Sorry, I couldn\u0027t process your request. " ++ ("Details: " ++ e) = _
  rw [show ("Sorry, I couldn\u0027t process your request. " : String) = faultHeader ++ " " from rfl,
    String.append_assoc, ← String.append_assoc " " "Details: " e,
    show (" " ++ "Details: " : String) = " Details: " from rfl]

theorem sysInv_applyChatOp (s : ConversationState) (op : ChatOp)
    (h : SysInv s) : SysInv (applyChatOp s op) := by
  obtain ⟨rest, hm, hr⟩ := h
  cases op with
  | user t =>
    refine ⟨rest ++ [{ role := Role.user, content := t }], ?_, ?_⟩
    · simp [applyChatOp, append_user, hm]
    · intro m hmem
      rcases List.mem_append.mp hmem with h1 | h1
      · exact hr m h1
      · simp at h1
        subst h1
        simp
  | assistant t =>
    refine ⟨rest ++ [{ role := Role.assistant, content := t }], ?_, ?_⟩
    · simp [applyChatOp, append_assistant, hm]
    · intro m hmem
      rcases List.mem_append.mp hmem with h1 | h1
      · exact hr m h1
      · simp at h1
        subst h1
        simp

theorem sysInv_applyChatOps (ops : List ChatOp) :
    ∀ s : ConversationState, SysInv s → SysInv (applyChatOps s ops) := by
  induction ops with
  | nil => intro s h; exact h
  | cons op ops ih =>
    intro s h
    exact ih (applyChatOp s op) (sysInv_applyChatOp s op h)

/-- C1: starting from the initialized state, any sequence of append_user /
append_assistant operations leaves the transcript with exactly one
system-role message, namely the default system message, as its first
element; no later message has the system role, so it is never duplicated
or removed. -/
theorem system_message_invariant (ops : List ChatOp) :
    ∃ rest, (applyChatOps initState ops).messages = defaultSystemMessage :: rest
      ∧ ∀ m ∈ rest, m.role ≠ Role.system :=
  sysInv_applyChatOps ops initState ⟨[], rfl, by simp⟩

/-- C2 as literally stated is false on the code: when the remote call
succeeds with an empty text content, complete returns the empty string,
which is neither non-empty text nor a string beginning with the fault
header. -/
theorem complete_claim_counterexample :
    ¬ (complete (fun _ => Except.ok { choices := [{ content := "" }] })
          [defaultSystemMessage] "gpt-3.5-turbo" (0.2 : ℚ) ≠ ""
        ∨ FaultPrefixed (complete (fun _ => Except.ok { choices := [{ content := "" }] })
          [defaultSystemMessage] "gpt-3.5-turbo" (0.2 : ℚ))) := by
  have hr : complete (fun _ => Except.ok { choices := [{ content := "" }] })
      [defaultSystemMessage] "gpt-3.5-turbo" (0.2 : ℚ) = "" := rfl
  rw [hr]
  rintro (h | ⟨r, hpre⟩)
  · exact h rfl
  · have h := congrArg String.length hpre
    have h2 : faultHeader.length = 39 := rfl
    simp [String.length_append, h2] at h
    omega

/-- C2 (amended): complete never raises (it is a total, string-valued
function); every fault of the remote call, the missing-first-choice case
included, is converted at the try/except boundary into exactly
faultString e, a string beginning with the quoted fault header; on success
it returns the remote text verbatim, which is non-empty exactly when the
remote text is. -/
theorem complete_total_fault_boundary (client : Remote) (messages : List Message)
    (model : String) (temperature : ℚ) :
    (∃ e, ask_openai client messages model temperature = Except.error e
        ∧ complete client messages model temperature = faultString e
        ∧ FaultPrefixed (complete client messages model temperature))
    ∨ (∃ t, ask_openai client messages model temperature = Except.ok t
        ∧ complete client messages model temperature = t) := by
  cases h : ask_openai client messages model temperature with
  | error e =>
    left
    have hc : complete client messages model temperature = faultString e := by
      simp [complete, h]
    exact ⟨e, rfl, hc, hc ▸ faultString_prefixed e⟩
  | ok t =>
    right
    exact ⟨t, rfl, by simp [complete, h]⟩

/-- C3: on a non-empty submission from the initialized state, the cycle
appends the user message, snapshots the two stored messages, issues exactly
one request carrying them under the current model and temperature, and
appends the result-or-fault string of complete as the assistant message:
the resulting transcript has roles [system, user, assistant], in both the
success and the fault case. -/
theorem submission_cycle (client : Remote) (input : String) (h : input ≠ "") :
    processInput client initState input =
      ({ messages := [defaultSystemMessage,
            { role := Role.user, content := input },
            { role := Role.assistant,
              content := complete client
                [defaultSystemMessage, { role := Role.user, content := input }]
                "gpt-3.5-turbo" (0.2 : ℚ) }],
          model := "gpt-3.5-turbo", temperature := (0.2 : ℚ) },
        some (chatRequest "gpt-3.5-turbo"
          [defaultSystemMessage, { role := Role.user, content := input }] (0.2 : ℚ)))
    ∧ (processInput client initState input).1.messages.map Message.role
        = [Role.system, Role.user, Role.assistant] := by
  constructor
  · simp only [processInput, if_neg h]
    rfl
  · simp only [processInput, if_neg h]
    rfl

theorem submission_cycle_witness :
    (processInput (fun _ => Except.error "boom") initState "hi").1.messages.map Message.role
      = [Role.system, Role.user, Role.assistant] :=
  (submission_cycle (fun _ => Except.error "boom") "hi" (by decide)).2

/-- C4: reset replaces the transcript by the single default system message
(length 1, role system) and leaves model and temperature unchanged. -/
theorem reset_single_system (s : ConversationState) :
    (reset s).messages
        = [{ role := Role.system, content := get_default_system_prompt }]
    ∧ (reset s).messages.length = 1
    ∧ (reset s).messages.map Message.role = [Role.system]
    ∧ (reset s).model = s.model
    ∧ (reset s).temperature = s.temperature :=
  ⟨rfl, rfl, rfl, rfl, rfl⟩

theorem getD_set_ne {α : Type} (l : List α) (i a : Nat) (v d : α) (h : i ≠ a) :
    (l.set i v).getD a d = l.getD a d := by
  simp [List.getD, List.getElem?_set_ne h]

theorem getD_append_left {α : Type} (l l2 : List α) (a : Nat) (d : α)
    (h : a < l.length) : (l ++ l2).getD a d = l.getD a d := by
  simp [List.getD, List.getElem?_append_left h]

theorem getD_concat_length {α : Type} (l : List α) (v d : α) :
    (l ++ [v]).getD l.length d = v := by
  simp [List.getD, List.getElem?_append_right (le_refl _)]

theorem heapOp_frame (σ : PyState) (op : HeapOp) (a : Nat)
    (ha : a < σ.cells.length) (hne : σ.liveAddr ≠ a) :
    readCell (applyHeapOp σ op) a = readCell σ a
    ∧ (applyHeapOp σ op).liveAddr ≠ a
    ∧ a < (applyHeapOp σ op).cells.length := by
  cases op with
  | user t =>
    refine ⟨?_, hne, ?_⟩
    · simp only [applyHeapOp, heapAppend, readCell]
      exact getD_set_ne _ _ _ _ _ hne
    · simpa [applyHeapOp, heapAppend] using ha
  | assistant t =>
    refine ⟨?_, hne, ?_⟩
    · simp only [applyHeapOp, heapAppend, readCell]
      exact getD_set_ne _ _ _ _ _ hne
    · simpa [applyHeapOp, heapAppend] using ha
  | reset =>
    refine ⟨?_, ?_, ?_⟩
    · simp only [applyHeapOp, heapReset, readCell]
      exact getD_append_left _ _ _ _ ha
    · simp only [applyHeapOp, heapReset]
      exact (Nat.ne_of_lt ha).symm
    · simp only [applyHeapOp, heapReset, List.length_append]
      omega

theorem heapOps_frame (ops : List HeapOp) :
    ∀ σ : PyState, ∀ a : Nat, a < σ.cells.length → σ.liveAddr ≠ a →
      readCell (applyHeapOps σ ops) a = readCell σ a
      ∧ (applyHeapOps σ ops).liveAddr ≠ a
      ∧ a < (applyHeapOps σ ops).cells.length := by
  induction ops with
  | nil => intro σ a ha hne; exact ⟨rfl, hne, ha⟩
  | cons op ops ih =>
    intro σ a ha hne
    obtain ⟨h1, h2, h3⟩ := heapOp_frame σ op a ha hne
    obtain ⟨h4, h5, h6⟩ := ih (applyHeapOp σ op) a h3 h2
    exact ⟨h4.trans h1, h5, h6⟩

/-- C5: on the Python object model, build_messages allocates a fresh cell
holding a copy of the live transcript: the copy agrees with the live list
at snapshot time and is unaffected by any later sequence of live-state
mutations (appends mutate the live cell in place, reset rebinds to a fresh
cell; neither ever writes the snapshot cell). -/
theorem snapshot_unaffected (σ : PyState) (ops : List HeapOp)
    (h : σ.liveAddr < σ.cells.length) :
    readCell (snapshotAddr σ).1 (snapshotAddr σ).2 = readCell σ σ.liveAddr
    ∧ readCell (applyHeapOps (snapshotAddr σ).1 ops) (snapshotAddr σ).2
        = readCell σ σ.liveAddr := by
  have hsnap : readCell (snapshotAddr σ).1 (snapshotAddr σ).2
      = readCell σ σ.liveAddr := by
    simp only [snapshotAddr, readCell]
    exact getD_concat_length _ _ _
  refine ⟨hsnap, ?_⟩
  have hlen : (snapshotAddr σ).2 < (snapshotAddr σ).1.cells.length := by
    simp [snapshotAddr]
  have hlive : (snapshotAddr σ).1.liveAddr ≠ (snapshotAddr σ).2 :=
    Nat.ne_of_lt h
  obtain ⟨h1, _, _⟩ := heapOps_frame ops (snapshotAddr σ).1 (snapshotAddr σ).2 hlen hlive
  exact h1.trans hsnap

theorem snapshot_unaffected_witness :
    readCell
        (applyHeapOps
          (snapshotAddr { cells := [[defaultSystemMessage]], liveAddr := 0 }).1
          [HeapOp.user "hi", HeapOp.reset])
        (snapshotAddr { cells := [[defaultSystemMessage]], liveAddr := 0 }).2
      = readCell { cells := [[defaultSystemMessage]], liveAddr := 0 } 0 :=
  (snapshot_unaffected { cells := [[defaultSystemMessage]], liveAddr := 0 }
    [HeapOp.user "hi", HeapOp.reset] (by decide)).2

/-- C6: initialising an empty session yields exactly one system-role
message (the default system message), model gpt-3.5-turbo and temperature
0.2; and ensure_session_state is idempotent: when all three keys already
exist it changes nothing. -/
theorem ensure_session_state_spec :
    (ensure_session_state emptySession).messages = some [defaultSystemMessage]
    ∧ (ensure_session_state emptySession).model = some "gpt-3.5-turbo"
    ∧ (ensure_session_state emptySession).temperature = some (0.2 : ℚ)
    ∧ initState.messages = [defaultSystemMessage]
    ∧ initState.messages.map Message.role = [Role.system]
    ∧ (∀ s : SessionState, s.messages.isSome → s.model.isSome →
        s.temperature.isSome → ensure_session_state s = s) := by
  refine ⟨rfl, rfl, rfl, rfl, rfl, ?_⟩
  intro s h1 h2 h3
  obtain ⟨ms, hm⟩ := Option.isSome_iff_exists.mp h1
  obtain ⟨mo, ho⟩ := Option.isSome_iff_exists.mp h2
  obtain ⟨t, ht⟩ := Option.isSome_iff_exists.mp h3
  cases s
  simp_all [ensure_session_state]

theorem ensure_session_state_spec_witness :
    ensure_session_state
        { messages := some [defaultSystemMessage],
          model := some "gpt-4", temperature := some (0.7 : ℚ) }
      = { messages := some [defaultSystemMessage],
          model := some "gpt-4", temperature := some (0.7 : ℚ) } :=
  ensure_session_state_spec.2.2.2.2.2
    { messages := some [defaultSystemMessage],
      model := some "gpt-4", temperature := some (0.7 : ℚ) }
    rfl rfl rfl

/-- C7: the request built by ask_openai carries the given message sequence
verbatim, in stored order (so the stored system message is sent exactly as
stored, not stripped), together with the given model and temperature;
build_messages hands over exactly the stored transcript; and on a
successful remote reply complete returns the first generated choice text. -/
theorem complete_sends_verbatim (client : Remote) (messages : List Message)
    (model : String) (temperature : ℚ) :
    (chatRequest model messages temperature).messages = messages
    ∧ (chatRequest model messages temperature).model = model
    ∧ (chatRequest model messages temperature).temperature = temperature
    ∧ (∀ s : ConversationState, build_messages s = s.messages)
    ∧ (∀ r c rest, client (chatRequest model messages temperature) = Except.ok r →
        r.choices = c :: rest →
        complete client messages model temperature = c.content) := by
  refine ⟨rfl, rfl, rfl, fun _ => rfl, ?_⟩
  intro r c rest h1 h2
  simp [complete, ask_openai, h1, h2]

theorem complete_sends_verbatim_witness :
    complete (fun _ => Except.ok { choices := [{ content := "hello" }] })
        [defaultSystemMessage] "gpt-4" (1 : ℚ) = "hello" :=
  (complete_sends_verbatim (fun _ => Except.ok { choices := [{ content := "hello" }] })
      [defaultSystemMessage] "gpt-4" (1 : ℚ)).2.2.2.2
    { choices := [{ content := "hello" }] } { content := "hello" } [] rfl rfl

/-- C8: an empty (falsy) submission is silently ignored: the state is
returned unchanged, no request is issued, and the transcript length is
unchanged. -/
theorem empty_input_ignored (client : Remote) (s : ConversationState) :
    processInput client s "" = (s, none)
    ∧ (processInput client s "").1.messages.length = s.messages.length :=
  ⟨rfl, rfl⟩

/-- C9: set_temperature and set_model are direct field assignments with no
clamping, rejection or validation: for every supplied value, out-of-range
temperatures included, the stored field afterwards equals the supplied
value and the other fields are untouched. -/
theorem setters_pass_through (s : ConversationState) (v : ℚ) (m : String) :
    (set_temperature s v).temperature = v
    ∧ (set_temperature s v).messages = s.messages
    ∧ (set_temperature s v).model = s.model
    ∧ (set_model s m).model = m
    ∧ (set_model s m).messages = s.messages
    ∧ (set_model s m).temperature = s.temperature :=
  ⟨rfl, rfl, rfl, rfl, rfl, rfl⟩

/-- C10: after reset the transcript equals the one produced by a fresh
initialisation: the single default system message with the fixed default
prompt text, whatever the prior state contained. -/
theorem reset_equals_fresh_init (s : ConversationState) :
    (reset s).messages = initState.messages
    ∧ initState.messages = [defaultSystemMessage]
    ∧ (reset s).messages.map Message.content = [get_default_system_prompt] :=
  ⟨rfl, rfl, rfl⟩

end App
